import Mathlib

/-!
Shallow embedding of the Companion-AI repository (src/modules/memory.py,
src/modules/personality.py) and proofs of the specification claims.

The external completion provider (a `langchain` chain `prompt | llm | parser`)
is modelled as a function argument: it receives the configured client and the
constructed request (system instruction and user content) and either returns
the parsed payload or fails.  `Except.error` covers every exception raised by
the chain call — network/provider failure as well as output-parse failure —
since in the source both surface as a single Python exception caught by the
surrounding `try`.  All definitions are translated from the source; the two
exceptions (the external client credential check and the spec-shaped memory
block used for a refinement comparison) are marked in their doc comments.
-/

/-- JSON values, as produced by `JsonOutputParser`: the parsed Python object a
successful chain invocation hands back to `extract_memory`. -/
inductive JValue where
  | null
  | bool (b : Bool)
  | num (q : ℚ)
  | str (s : String)
  | arr (xs : List JValue)
  | obj (kvs : List (String × JValue))

/-- Python `dict` lookup on a parsed JSON object (keys are unique in a Python
dict; an association list looked up at the first occurrence models this). -/
def jsonLookup (kvs : List (String × JValue)) (key : String) : Option JValue :=
  (kvs.find? (fun kv => kv.1 == key)).map Prod.snd

/-- Python `result.get(key, default)`: the value when the key is present (of
whatever shape, `None` included), the default only when the key is absent. -/
def dictGet (kvs : List (String × JValue)) (key : String) (default : JValue) : JValue :=
  (jsonLookup kvs key).getD default

/-- The `ChatOpenAI` client configuration as constructed in the source:
a model identifier, a sampling temperature and the API key. -/
structure ChatOpenAI where
  model : String
  temperature : ℚ
  api_key : String
deriving DecidableEq

/-- A request issued through a `ChatPromptTemplate` of one system and one user
message, after all template slots have been filled by `invoke`. -/
structure Request where
  system : String
  user : String
deriving DecidableEq

/-- Modelled from the spec: construction of the external provider client
(`langchain_openai.ChatOpenAI`), which is not part of this repository.  Per the
configuration surface of the spec, the provider credential is required with no
default and its absence is fatal at construction time (ConfigurationError),
before any completion call is attempted.  Absence is modelled as the empty
string, the falsy value the UI layer guards on before constructing anything. -/
def ChatOpenAI.make (model : String) (temperature : ℚ) (api_key : String) :
    Except String ChatOpenAI :=
  if api_key = "" then
    Except.error "ConfigurationError: missing provider credential"
  else
    Except.ok { model := model, temperature := temperature, api_key := api_key }

/-- `MemoryExtractor`: holds the configured client (`self.llm`); the stateless
`JsonOutputParser` carries no data and is not represented. -/
structure MemoryExtractor where
  llm : ChatOpenAI

/-- `MemoryExtractor.__init__`: builds the client at temperature 0.3 with the
given key and model (default `"gpt-4o-mini"`). -/
def MemoryExtractor.init (api_key : String) (model : String := "gpt-4o-mini") :
    Except String MemoryExtractor :=
  (ChatOpenAI.make model 0.3 api_key).map (fun llm => { llm := llm })

/-- The raw dictionary `extract_memory` returns: three entries whose values are
whatever the parsed JSON held (no shape validation happens in the source). -/
structure RawMemory where
  preferences : JValue
  emotional_patterns : JValue
  facts : JValue

/-- The fallback record built in the `except` branch of `extract_memory`. -/
def extraction_failure_memory : RawMemory :=
  { preferences := JValue.arr []
    emotional_patterns := JValue.str "Neutral (Extraction failed, using default)"
    facts := JValue.arr [] }

/-- The labelled chat lines of `extract_memory` line 53:
`f"Message {i+1}: {msg}" for i, msg in enumerate(chat_messages)`. -/
def labelled_lines (chat_messages : List String) : List String :=
  chat_messages.enum.map (fun p => "Message " ++ toString (p.1 + 1) ++ ": " ++ p.2)

/-- `chat_history`: the labelled lines joined by newlines, in original order. -/
def build_chat_history (chat_messages : List String) : String :=
  String.intercalate "\n" (labelled_lines chat_messages)

/-- The system message of the extraction prompt (memory.py lines 57-83). -/
def extract_system_message : String :=
  "You are an expert at analyzing human communication patterns and extracting meaningful insights.\n\nYour task is to analyze the following chat messages from a single user and extract structured information.\n\nAnalyze the messages carefully and identify:\n\n1. **User Preferences**: \n   - What they like/dislike (tools, languages, work styles, activities)\n   - Habits and routines they mention\n   - Communication preferences\n   - Format as a list of specific, concrete preferences\n\n2. **Emotional Patterns**:\n   - Recurring emotional states (anxiety, excitement, frustration, calm)\n   - Triggers that cause specific emotions\n   - Overall emotional tone trends\n   - Format as a description of patterns observed\n\n3. **Facts Worth Remembering**:\n   - Personal information (name, role, job title if mentioned)\n   - Constraints (budget limits, technical limitations, time constraints)\n   - Goals and aspirations\n   - Important context about their situation\n   - Format as a list of key facts\n\nBe specific and evidence-based. Only include information that is clearly present in the messages.\nDo not make assumptions beyond what is stated."

/-- The fixed text of `JsonOutputParser.get_format_instructions()`; it comes
from the external parser library and no claim depends on its exact wording. -/
def format_instructions : String := "Return a JSON object."

/-- The user message of the extraction prompt (memory.py lines 84-93) with its
three template slots filled: `{count}`, `{chat_history}`,
`{format_instructions}`. -/
def extract_user_message (count : Nat) (chat_history : String) (fi : String) : String :=
  "Analyze these " ++ toString count ++ " chat messages and extract the structured information:\n\n" ++ chat_history ++ "\n\nReturn your analysis as a JSON object with exactly these keys:\n- \"preferences\": array of strings (each preference as a separate item)\n- \"emotional_patterns\": string (description of emotional patterns observed)\n- \"facts\": array of strings (each fact as a separate item)\n\n" ++ fi

/-- The single request `extract_memory` issues for a given message list. -/
def extract_request (chat_messages : List String) : Request :=
  { system := extract_system_message
    user := extract_user_message chat_messages.length (build_chat_history chat_messages)
      format_instructions }

/-- `MemoryExtractor.extract_memory`.  The provider `f` models the chain
`prompt | self.llm | self.parser`: it sees the configured client and the filled
prompt, and yields the parsed JSON or fails (network error or unparseable
output alike).  On a parsed object, each of the three keys is filled via
`result.get(key, default)`; on any non-object payload, `result.get` raises
`AttributeError`, which the `except` branch turns into the failure record. -/
def MemoryExtractor.extract_memory
    (f : ChatOpenAI → Request → Except String JValue)
    (self : MemoryExtractor) (chat_messages : List String) : RawMemory :=
  match f self.llm (extract_request chat_messages) with
  | Except.ok (JValue.obj kvs) =>
      { preferences := dictGet kvs "preferences" (JValue.arr [])
        emotional_patterns := dictGet kvs "emotional_patterns"
          (JValue.str "No clear patterns detected.")
        facts := dictGet kvs "facts" (JValue.arr []) }
  | Except.ok _ => extraction_failure_memory
  | Except.error _ => extraction_failure_memory

/-- A well-shaped `MemoryRecord` as the data model of the spec defines it: the shape
the extraction prompt demands and that `format_memory_summary` and
`transform_response` consume.  On such a record the Python truthiness tests
`if memory.get(key)` are exactly non-emptiness of the list or string, written
below as decidable `≠ []` / `≠ ""` conditions. -/
structure Memory where
  preferences : List String
  emotional_patterns : String
  facts : List String
deriving DecidableEq

/-- Reads a JSON value as a list of strings, when it has exactly that shape. -/
def JValue.asStrings : JValue → Option (List String)
  | JValue.arr xs => xs.mapM (fun v => match v with | JValue.str s => some s | _ => none)
  | _ => none

/-- Views a raw extraction result as a well-shaped `MemoryRecord`, when all
three entries have the documented shapes. -/
def RawMemory.toRecord (r : RawMemory) : Option Memory :=
  match r.preferences.asStrings, r.emotional_patterns, r.facts.asStrings with
  | some ps, JValue.str e, some fs =>
      some { preferences := ps, emotional_patterns := e, facts := fs }
  | _, _, _ => none

/-- `MemoryExtractor.format_memory_summary` (memory.py lines 123-148): the
Python truthiness tests `if memory.get(key)` are, on a well-shaped record,
exactly non-emptiness of the list or string.  The `let` chain mirrors the
accumulating appends to `summary_parts`. -/
def format_memory_summary (memory : Memory) : String :=
  let summary_parts : List String := []
  let summary_parts := if memory.preferences ≠ [] then
    summary_parts ++ ["**User Preferences:**"] ++
      memory.preferences.map (fun pref => "- " ++ pref)
    else summary_parts
  let summary_parts := if memory.emotional_patterns ≠ "" then
    summary_parts ++ ["\n**Emotional Patterns:** " ++ memory.emotional_patterns]
    else summary_parts
  let summary_parts := if memory.facts ≠ [] then
    summary_parts ++ ["\n**Key Facts:**"] ++ memory.facts.map (fun fact => "- " ++ fact)
    else summary_parts
  if summary_parts ≠ [] then String.intercalate "\n" summary_parts
  else "No memory extracted yet."

/-- One entry of the static personality catalog. -/
structure PersonalityDefinition where
  name : String
  description : String
  traits : String
deriving DecidableEq

/-- The `"neutral"` entry of the catalog. -/
def neutral_definition : PersonalityDefinition :=
  { name := "Standard AI"
    description := "Neutral, professional assistant"
    traits := "neutral, professional, informative, straightforward" }

/-- The static class-level catalog `PersonalityEngine.PERSONALITIES`
(personality.py lines 21-42), in source order. -/
def PERSONALITIES : List (String × PersonalityDefinition) :=
  [("calm_mentor",
    { name := "Calm Mentor"
      description := "Patient, step-by-step guidance with reassurance"
      traits := "patient, methodical, reassuring, encouraging, breaks down complex topics into simple steps" }),
   ("witty_friend",
    { name := "Witty Friend"
      description := "Casual, humorous, and relatable"
      traits := "casual, humorous, uses slang and jokes, relatable, friendly banter, light-hearted" }),
   ("therapist_style",
    { name := "Therapist-Style"
      description := "Empathetic, reflective, and supportive"
      traits := "empathetic, reflective, asks thoughtful questions, validates feelings, supportive, non-judgmental" }),
   ("neutral", neutral_definition)]

/-- Catalog lookup, `PERSONALITIES[key]` / `key in PERSONALITIES`. -/
def lookupPersonality (key : String) : Option PersonalityDefinition :=
  (PERSONALITIES.find? (fun kv => kv.1 == key)).map Prod.snd

/-- `PersonalityEngine`: holds the configured client (`self.llm`). -/
structure PersonalityEngine where
  llm : ChatOpenAI

/-- `PersonalityEngine.__init__`: builds the client at temperature 0.7 with the
given key and model (default `"gpt-4o-mini"`). -/
def PersonalityEngine.init (api_key : String) (model : String := "gpt-4o-mini") :
    Except String PersonalityEngine :=
  (ChatOpenAI.make model 0.7 api_key).map (fun llm => { llm := llm })

/-- The memory context block of `transform_response` (personality.py lines
82-94): for `None` the block is the empty string; otherwise sub-parts are
accumulated under Python truthiness (non-empty list / non-empty string), with
`[:3]` truncation and comma-space join for the two list fields, and the header is
prepended only when at least one sub-part was accumulated. -/
def memory_context (memory : Option Memory) : String :=
  match memory with
  | none => ""
  | some memory =>
    let memory_parts : List String := []
    let memory_parts := if memory.preferences ≠ [] then
      memory_parts ++
        ["User preferences: " ++ String.intercalate ", " (memory.preferences.take 3)]
      else memory_parts
    let memory_parts := if memory.emotional_patterns ≠ "" then
      memory_parts ++ ["Emotional patterns: " ++ memory.emotional_patterns]
      else memory_parts
    let memory_parts := if memory.facts ≠ [] then
      memory_parts ++ ["Key facts: " ++ String.intercalate ", " (memory.facts.take 3)]
      else memory_parts
    if memory_parts ≠ [] then
      "\n\nUser Context (use this to personalize your response):\n" ++
        String.intercalate "\n" memory_parts
    else ""

/-- The system message of the transformation prompt (personality.py lines
98-108), an f-string over the selected catalog entry. -/
def transform_system_message (info : PersonalityDefinition) : String :=
  "You are transforming a standard AI response into a " ++ info.name ++ " style response.\n\nYour personality traits: " ++ info.traits ++ "\n\nYour task:\n1. Keep the core information and accuracy of the original response\n2. Transform the tone, style, and delivery to match the " ++ info.name ++ " personality\n3. Use the user\x27s memory context to personalize the response (reference their preferences, acknowledge their emotional state, mention relevant facts)\n4. Make it feel natural and authentic to the personality style\n\nDO NOT change the factual content, only the delivery style and personalization."

/-- The user message of the transformation prompt (personality.py lines
109-120) with its four template slots filled: `{user_question}`,
`{standard_response}`, `{memory_context}`, `{personality_name}`. -/
def transform_user_message (user_question standard_response mc personality_name : String) :
    String :=
  "Transform this response:\n\n**Original User Question:**\n" ++ user_question ++ "\n\n**Standard Response:**\n" ++ standard_response ++ "\n" ++ mc ++ "\n\n**Your Task:**\nRewrite the response in the " ++ personality_name ++ " style, incorporating the user context naturally. \nMake it feel personalized and authentic to both the personality and the user\x27s situation."

/-- The single request `transform_response` issues (personality.py lines
77-131): unknown personality keys fall back to `"neutral"` (lines 77-78), the
entry is then read from the catalog — the `getD` default can never fire since
`"neutral"` is a catalog key — and the prompt is built from the entry, the
question, the baseline response and the memory context block. -/
def transform_request (user_question standard_response personality : String)
    (memory : Option Memory) : Request :=
  let personality := if (lookupPersonality personality).isSome then personality
    else "neutral"
  let personality_info := (lookupPersonality personality).getD neutral_definition
  { system := transform_system_message personality_info
    user := transform_user_message user_question standard_response (memory_context memory)
      personality_info.name }

/-- `PersonalityEngine.transform_response`.  The provider `f` models the chain
`prompt | self.llm`: it sees the configured client and the filled prompt and
yields the response content or fails; the `except` branch returns the embedded
error string `f"Error transforming response: {str(e)}"`. -/
def PersonalityEngine.transform_response
    (f : ChatOpenAI → Request → Except String String)
    (self : PersonalityEngine) (user_question standard_response personality : String)
    (memory : Option Memory) : String :=
  match f self.llm (transform_request user_question standard_response personality memory) with
  | Except.ok result => result
  | Except.error e => "Error transforming response: " ++ e

/-- The request `get_standard_response` issues (personality.py lines 159-167):
a fixed neutral system instruction and the question as sole user content. -/
def standard_request (user_question : String) : Request :=
  { system := "You are a helpful, neutral AI assistant. Provide clear, informative responses without any particular personality style."
    user := user_question }

/-- `PersonalityEngine.get_standard_response` (personality.py lines 138-170):
constructs a fresh client (model `"gpt-4o-mini"`, temperature 0.5, the
`api_key` argument of the call) rather than using `self.llm`, issues the
neutral request through it, and converts failure into the embedded error
string `f"Error generating response: {str(e)}"`. -/
def PersonalityEngine.get_standard_response
    (f : ChatOpenAI → Request → Except String String)
    (_self : PersonalityEngine) (user_question : String) (api_key : String) : String :=
  match f { model := "gpt-4o-mini", temperature := 0.5, api_key := api_key }
      (standard_request user_question) with
  | Except.ok result => result
  | Except.error e => "Error generating response: " ++ e

/-- Spec-shaped memory block, written from the words of the spec for the refinement
comparison of the memory-folding rule: a context block listing up to the first
3 preferences comma-joined, the emotional_patterns text if non-empty, and up to
the first 3 facts comma-joined, omitting each sub-part whose source field is
empty, and omitted entirely when no sub-part is non-empty or no memory is
provided. -/
def memoryBlockSpec (memory : Option Memory) : String :=
  match memory with
  | none => ""
  | some m =>
    let parts : List String :=
      (if m.preferences ≠ [] then
        ["User preferences: " ++ String.intercalate ", " (m.preferences.take 3)] else []) ++
      (if m.emotional_patterns ≠ "" then
        ["Emotional patterns: " ++ m.emotional_patterns] else []) ++
      (if m.facts ≠ [] then
        ["Key facts: " ++ String.intercalate ", " (m.facts.take 3)] else [])
    if parts = [] then ""
    else "\n\nUser Context (use this to personalize your response):\n" ++
      String.intercalate "\n" parts

/-- Spec-shaped section list of the memory summary, written from the words of
the spec: a section per field, emitted only when the field is non-empty. -/
def summarySectionsSpec (m : Memory) : List String :=
  (if m.preferences ≠ [] then
    "**User Preferences:**" :: m.preferences.map (fun pref => "- " ++ pref) else []) ++
  (if m.emotional_patterns ≠ "" then
    ["\n**Emotional Patterns:** " ++ m.emotional_patterns] else []) ++
  (if m.facts ≠ [] then
    "\n**Key Facts:**" :: m.facts.map (fun fact => "- " ++ fact) else [])

/-- Concrete extractor fixture (a constructed component). -/
def extractor0 : MemoryExtractor := { llm := { model := "gpt-4o-mini", temperature := 0.3, api_key := "k" } }

/-- Concrete engine fixture (a constructed component). -/
def engine0 : PersonalityEngine := { llm := { model := "gpt-4o-mini", temperature := 0.7, api_key := "k" } }

/-- A provider that always fails (network/auth error, or unparseable output). -/
def failProvider : ChatOpenAI → Request → Except String JValue :=
  fun _ _ => Except.error "provider unreachable"

/-- A provider whose parsed response carries a wrong-shaped `preferences` value
(a string where the contract demands an array of strings). -/
def wrongShapeProvider : ChatOpenAI → Request → Except String JValue :=
  fun _ _ => Except.ok (JValue.obj
    [("preferences", JValue.str "dark mode"),
     ("emotional_patterns", JValue.str "calm"),
     ("facts", JValue.arr [])])

/-- A fixed parsed response with `preferences` present and the other keys
absent. -/
def sparseKvs : List (String × JValue) :=
  [("preferences", JValue.arr [JValue.str "dark mode"])]

/-- A provider returning `sparseKvs` as its parsed response. -/
def sparseProvider : ChatOpenAI → Request → Except String JValue :=
  fun _ _ => Except.ok (JValue.obj sparseKvs)

/-- The degraded record of an extraction failure, viewed as a well-shaped
`MemoryRecord`. -/
def degraded_record : Memory :=
  { preferences := [], emotional_patterns := "Neutral (Extraction failed, using default)", facts := [] }

/-- A record for a user with no extracted data at all. -/
def all_empty_record : Memory :=
  { preferences := [], emotional_patterns := "", facts := [] }

/-- A transformation provider that always fails. -/
def failTextProvider : ChatOpenAI → Request → Except String String :=
  fun _ _ => Except.error "rate limit exceeded"

/-- A transformation provider that always succeeds with a fixed payload. -/
def okTextProvider : ChatOpenAI → Request → Except String String :=
  fun _ _ => Except.ok "hi"

/-- C1: for every input chat_lines sequence, if the provider call fails or the
response cannot be parsed as JSON at all (both surface as the single caught
exception, here the `Except.error` case of the provider), `extract_memory`
returns the record with empty `preferences`, the sentinel
`"Neutral (Extraction failed, using default)"` as `emotional_patterns`, and
empty `facts`.  The operation is a total Lean function, so no error escapes the
call boundary. -/
theorem extract_memory_absorbs_provider_failure
    (f : ChatOpenAI → Request → Except String JValue)
    (self : MemoryExtractor) (chat_messages : List String)
    (h : ∀ llm req, ∃ e, f llm req = Except.error e) :
    self.extract_memory f chat_messages = extraction_failure_memory := by
  obtain ⟨e, he⟩ := h self.llm (extract_request chat_messages)
  unfold MemoryExtractor.extract_memory
  rw [he]

/-- Witness for `extract_memory_absorbs_provider_failure` at a concrete
always-failing provider and message list. -/
theorem extract_memory_absorbs_provider_failure_witness :
    (∀ llm req, ∃ e, failProvider llm req = Except.error e) ∧
    MemoryExtractor.extract_memory failProvider extractor0 ["I love dark mode"]
      = extraction_failure_memory :=
  ⟨fun _ _ => ⟨"provider unreachable", rfl⟩,
   extract_memory_absorbs_provider_failure failProvider extractor0 ["I love dark mode"]
     (fun _ _ => ⟨"provider unreachable", rfl⟩)⟩

/-- C2 counterexample: the claim demands that a present key of the wrong shape
be replaced by its per-key default, but the source fills each key with
`result.get(key, default)`, which substitutes the default only when the key is
absent.  With `preferences` present as the string `"dark mode"` (not an array),
the returned record carries that string through instead of the claimed empty
sequence. -/
theorem extract_memory_wrong_shape_passthrough :
    (MemoryExtractor.extract_memory wrongShapeProvider extractor0 []).preferences
      = JValue.str "dark mode" ∧
    JValue.str "dark mode" ≠ JValue.arr [] := by
  refine ⟨rfl, fun h => ?_⟩
  exact JValue.noConfusion h

/-- C2 amended: for every provider response that parses as a JSON object,
`extract_memory` substitutes the per-key default (empty sequence for
`preferences`/`facts`, the fixed neutral string
`"No clear patterns detected."` for `emotional_patterns`) for each of the
three keys that is absent, and passes through the value of every present key
unchanged regardless of its shape, so the returned record always has all three
fields. -/
theorem extract_memory_absent_key_defaults
    (f : ChatOpenAI → Request → Except String JValue)
    (self : MemoryExtractor) (chat_messages : List String)
    (kvs : List (String × JValue))
    (h : f self.llm (extract_request chat_messages) = Except.ok (JValue.obj kvs)) :
    (jsonLookup kvs "preferences" = none →
      (self.extract_memory f chat_messages).preferences = JValue.arr []) ∧
    (∀ v, jsonLookup kvs "preferences" = some v →
      (self.extract_memory f chat_messages).preferences = v) ∧
    (jsonLookup kvs "emotional_patterns" = none →
      (self.extract_memory f chat_messages).emotional_patterns
        = JValue.str "No clear patterns detected.") ∧
    (∀ v, jsonLookup kvs "emotional_patterns" = some v →
      (self.extract_memory f chat_messages).emotional_patterns = v) ∧
    (jsonLookup kvs "facts" = none →
      (self.extract_memory f chat_messages).facts = JValue.arr []) ∧
    (∀ v, jsonLookup kvs "facts" = some v →
      (self.extract_memory f chat_messages).facts = v) := by
  unfold MemoryExtractor.extract_memory
  rw [h]
  refine ⟨fun hk => ?_, fun v hk => ?_, fun hk => ?_, fun v hk => ?_,
    fun hk => ?_, fun v hk => ?_⟩ <;> simp [dictGet, hk]

/-- Witness for `extract_memory_absent_key_defaults` at a concrete response
with `preferences` present (passed through) and `emotional_patterns` and
`facts` absent (defaulted). -/
theorem extract_memory_absent_key_defaults_witness :
    (MemoryExtractor.extract_memory sparseProvider extractor0 []).preferences
      = JValue.arr [JValue.str "dark mode"] ∧
    (MemoryExtractor.extract_memory sparseProvider extractor0 []).emotional_patterns
      = JValue.str "No clear patterns detected." ∧
    (MemoryExtractor.extract_memory sparseProvider extractor0 []).facts
      = JValue.arr [] :=
  ⟨(extract_memory_absent_key_defaults sparseProvider extractor0 [] sparseKvs rfl).2.1
      (JValue.arr [JValue.str "dark mode"]) rfl,
   (extract_memory_absent_key_defaults sparseProvider extractor0 [] sparseKvs rfl).2.2.1
      rfl,
   (extract_memory_absent_key_defaults sparseProvider extractor0 [] sparseKvs rfl).2.2.2.2.1
      rfl⟩

/-- Helper: joining a one-element list inserts no separator. -/
theorem intercalate_singleton (sep s : String) : String.intercalate sep [s] = s := rfl

/-- C6: `format_memory_summary` is a total, pure, deterministic Lean function
over any well-shaped `MemoryRecord`; its output is the join of exactly the
spec-shaped sections (one per non-empty field), it returns the fixed sentinel
`"No memory extracted yet."` when all fields are empty, and on a record with
only `facts` populated the output is exactly the facts section — no
preferences or emotional-patterns section. -/
theorem format_memory_summary_sections (m : Memory) :
    format_memory_summary m =
      (if summarySectionsSpec m = [] then "No memory extracted yet."
       else String.intercalate "\n" (summarySectionsSpec m)) ∧
    (m.preferences = [] → m.emotional_patterns = "" → m.facts = [] →
      format_memory_summary m = "No memory extracted yet.") ∧
    (m.preferences = [] → m.emotional_patterns = "" → m.facts ≠ [] →
      format_memory_summary m =
        String.intercalate "\n"
          ("\n**Key Facts:**" :: m.facts.map (fun fact => "- " ++ fact))) := by
  refine ⟨?_, fun hp he hf => ?_, fun hp he hf => ?_⟩
  · simp only [format_memory_summary, summarySectionsSpec]
    by_cases hp : m.preferences = [] <;> by_cases he : m.emotional_patterns = "" <;>
      by_cases hf : m.facts = [] <;> simp [hp, he, hf]
  · simp [format_memory_summary, hp, he, hf]
  · simp [format_memory_summary, hp, he, hf]

/-- Witness for `format_memory_summary_sections`: the all-empty record yields
the sentinel, and a record with only `facts` populated yields exactly the
facts section. -/
theorem format_memory_summary_sections_witness :
    format_memory_summary all_empty_record = "No memory extracted yet." ∧
    format_memory_summary
        { preferences := [], emotional_patterns := "", facts := ["deadline Friday"] }
      = String.intercalate "\n"
          ("\n**Key Facts:**" :: (["deadline Friday"].map (fun fact => "- " ++ fact))) :=
  ⟨(format_memory_summary_sections all_empty_record).2.1 rfl rfl rfl,
   (format_memory_summary_sections
      { preferences := [], emotional_patterns := "", facts := ["deadline Friday"] }).2.2
     rfl rfl (by simp)⟩

/-- C7 counterexample: the degraded record of an extraction failure is NOT
user-visibly identical to the all-empty record — its sentinel
`emotional_patterns` string is non-empty, so both `format_memory_summary` and
the `transform_response` memory block display it, while the all-empty record
yields the no-memory sentinel and no block at all. -/
theorem degraded_record_distinguishable :
    format_memory_summary degraded_record ≠ format_memory_summary all_empty_record ∧
    memory_context (some degraded_record) ≠ memory_context (some all_empty_record) := by
  constructor <;> decide

/-- C7 amended: the degraded record produced by extraction failure has empty
`preferences` and `facts` like the all-empty record, so no preferences or facts
sub-parts appear for it, and for every record with empty `preferences` and
`facts` the summary and memory block depend only on the `emotional_patterns`
text — the degraded record is indistinguishable from a user with no notable
preferences or facts whose emotional description equals the sentinel.  It is,
however, distinguishable from the all-empty record: the non-empty sentinel is
displayed by `format_memory_summary` and embedded by the memory block. -/
theorem degraded_record_user_visibility :
    (MemoryExtractor.extract_memory failProvider extractor0 []).toRecord
      = some degraded_record ∧
    format_memory_summary degraded_record
      = "\n**Emotional Patterns:** Neutral (Extraction failed, using default)" ∧
    memory_context (some degraded_record)
      = "\n\nUser Context (use this to personalize your response):\nEmotional patterns: Neutral (Extraction failed, using default)" ∧
    (∀ m : Memory, m.preferences = [] → m.facts = [] →
      format_memory_summary m
        = (if m.emotional_patterns = "" then "No memory extracted yet."
           else "\n**Emotional Patterns:** " ++ m.emotional_patterns) ∧
      memory_context (some m)
        = (if m.emotional_patterns = "" then ""
           else "\n\nUser Context (use this to personalize your response):\n"
             ++ ("Emotional patterns: " ++ m.emotional_patterns))) := by
  refine ⟨by decide, by decide, by decide, fun m hp hf => ⟨?_, ?_⟩⟩ <;>
    by_cases he : m.emotional_patterns = "" <;>
      simp [format_memory_summary, memory_context, hp, hf, he, intercalate_singleton]

/-- Witness for `degraded_record_user_visibility` at a record with empty
preferences and facts and a concrete non-empty emotional description. -/
theorem degraded_record_user_visibility_witness :
    format_memory_summary
        { preferences := [], emotional_patterns := "stressed", facts := [] }
      = "\n**Emotional Patterns:** stressed" := by
  have h := (degraded_record_user_visibility.2.2.2
    { preferences := [], emotional_patterns := "stressed", facts := [] } rfl rfl).1
  simpa using h

/-- C3: the memory-folding rule of `transform_response`.  With `memory = None`
the block is empty, so the user content sent to the provider embeds no memory
block; with a record provided, the embedded block equals the spec-shaped block
(`memoryBlockSpec`): up to the first 3 preferences comma-joined, the
emotional_patterns text when non-empty, up to the first 3 facts comma-joined,
each sub-part omitted when its source field is empty, and the whole block
omitted when no sub-part is non-empty.  The last conjunct exhibits the single
request issued: its user content embeds exactly `memory_context memory`. -/
theorem transform_response_memory_folding
    (user_question standard_response personality : String) (memory : Option Memory) :
    memory_context none = "" ∧
    memory_context memory = memoryBlockSpec memory ∧
    (∃ info : PersonalityDefinition,
      transform_request user_question standard_response personality memory =
        { system := transform_system_message info
          user := transform_user_message user_question standard_response
            (memory_context memory) info.name }) := by
  refine ⟨rfl, ?_, ?_⟩
  · match memory with
    | none => rfl
    | some m =>
      simp only [memory_context, memoryBlockSpec]
      by_cases hp : m.preferences = [] <;> by_cases he : m.emotional_patterns = "" <;>
        by_cases hf : m.facts = [] <;> simp [hp, he, hf]
  · exact ⟨(lookupPersonality (if (lookupPersonality personality).isSome then personality
      else "neutral")).getD neutral_definition, rfl⟩

/-- C4: an unrecognized personality identifier behaves identically to
`"neutral"` — the same catalog entry is used, the same request is constructed,
and the same result is returned; the operation is total, so it never fails on
an unknown key. -/
theorem transform_response_unknown_personality
    (f : ChatOpenAI → Request → Except String String) (self : PersonalityEngine)
    (user_question standard_response : String) (memory : Option Memory)
    (personality : String) (h : lookupPersonality personality = none) :
    transform_request user_question standard_response personality memory
      = transform_request user_question standard_response "neutral" memory ∧
    self.transform_response f user_question standard_response personality memory
      = self.transform_response f user_question standard_response "neutral" memory := by
  have hreq : transform_request user_question standard_response personality memory
      = transform_request user_question standard_response "neutral" memory := by
    unfold transform_request
    rw [h]
    simp
  refine ⟨hreq, ?_⟩
  unfold PersonalityEngine.transform_response
  rw [hreq]

/-- Witness for `transform_response_unknown_personality` at the unknown key
`"pirate"`. -/
theorem transform_response_unknown_personality_witness :
    lookupPersonality "pirate" = none ∧
    PersonalityEngine.transform_response okTextProvider engine0
        "How do I fix this bug?" "Check your logs." "pirate" none
      = PersonalityEngine.transform_response okTextProvider engine0
        "How do I fix this bug?" "Check your logs." "neutral" none :=
  ⟨by decide,
   (transform_response_unknown_personality okTextProvider engine0
     "How do I fix this bug?" "Check your logs." none "pirate" (by decide)).2⟩

/-- C5: when the provider call fails, `transform_response` returns exactly
`"Error transforming response: " ++ e` and `get_standard_response` returns
exactly `"Error generating response: " ++ e` — each a string starting with
`"Error "` (exhibited by the explicit decompositions) that embeds the
underlying failure detail `e`; both are total Lean functions, so no exception
escapes either call. -/
theorem error_payload_on_provider_failure
    (fT fS : ChatOpenAI → Request → Except String String)
    (self self2 : PersonalityEngine)
    (user_question standard_response personality api_key : String)
    (memory : Option Memory) (eT eS : String)
    (hT : fT self.llm (transform_request user_question standard_response personality memory)
      = Except.error eT)
    (hS : fS { model := "gpt-4o-mini", temperature := 0.5, api_key := api_key }
      (standard_request user_question) = Except.error eS) :
    self.transform_response fT user_question standard_response personality memory
      = "Error transforming response: " ++ eT ∧
    self.transform_response fT user_question standard_response personality memory
      = "Error " ++ ("transforming response: " ++ eT) ∧
    self2.get_standard_response fS user_question api_key
      = "Error generating response: " ++ eS ∧
    self2.get_standard_response fS user_question api_key
      = "Error " ++ ("generating response: " ++ eS) := by
  have h1 : self.transform_response fT user_question standard_response personality memory
      = "Error transforming response: " ++ eT := by
    unfold PersonalityEngine.transform_response
    rw [hT]
  have h2 : self2.get_standard_response fS user_question api_key
      = "Error generating response: " ++ eS := by
    unfold PersonalityEngine.get_standard_response
    rw [hS]
  have ha : ("Error transforming response: " : String) = "Error " ++ "transforming response: " := by
    decide
  have hb : ("Error generating response: " : String) = "Error " ++ "generating response: " := by
    decide
  refine ⟨h1, ?_, h2, ?_⟩
  · rw [h1, ha, String.append_assoc]
  · rw [h2, hb, String.append_assoc]

/-- Witness for `error_payload_on_provider_failure` at a concrete failing
provider. -/
theorem error_payload_on_provider_failure_witness :
    PersonalityEngine.transform_response failTextProvider engine0
        "How do I fix this bug?" "Check your logs." "witty_friend" none
      = "Error transforming response: " ++ "rate limit exceeded" ∧
    PersonalityEngine.get_standard_response failTextProvider engine0
        "How do I fix this bug?" "k2"
      = "Error " ++ ("generating response: " ++ "rate limit exceeded") :=
  ⟨(error_payload_on_provider_failure failTextProvider failTextProvider engine0 engine0
      "How do I fix this bug?" "Check your logs." "witty_friend" "k2" none
      "rate limit exceeded" "rate limit exceeded" rfl rfl).1,
   (error_payload_on_provider_failure failTextProvider failTextProvider engine0 engine0
      "How do I fix this bug?" "Check your logs." "witty_friend" "k2" none
      "rate limit exceeded" "rate limit exceeded" rfl rfl).2.2.2⟩

/-- C8: constructing a component without the provider credential fails fast
with a clear ConfigurationError and never yields a constructed component; the
completion-issuing operations (`extract_memory`, `transform_response`,
`get_standard_response`) all take a constructed `MemoryExtractor` /
`PersonalityEngine` value, which can only be obtained from the `Except.ok` case
of construction, so no such operation can be attempted on an unconstructed
component and no provider call is made.  (The credential check itself lives in
the external `ChatOpenAI` constructor, modelled from the spec in
`ChatOpenAI.make`.) -/
theorem missing_credential_fatal_at_construction (model : String) :
    MemoryExtractor.init "" model
      = Except.error "ConfigurationError: missing provider credential" ∧
    PersonalityEngine.init "" model
      = Except.error "ConfigurationError: missing provider credential" ∧
    (∀ ext : MemoryExtractor, MemoryExtractor.init "" model ≠ Except.ok ext) ∧
    (∀ eng : PersonalityEngine, PersonalityEngine.init "" model ≠ Except.ok eng) := by
  unfold MemoryExtractor.init PersonalityEngine.init ChatOpenAI.make
  simp [Except.map]

/-- C9: for every sequence of chat lines (the empty one included),
`extract_memory` depends on the provider only through its value at the single
request `extract_request chat_messages` (so exactly that one request is
issued); the user content of that request embeds the message count and the built
context; the context is the newline-join of the labelled lines; and the i-th
labelled line is the original i-th message prefixed with its 1-based positional
label `"Message N: "`, in original order. -/
theorem extract_memory_single_labelled_request
    (self : MemoryExtractor) (chat_messages : List String) :
    (∀ f g : ChatOpenAI → Request → Except String JValue,
      f self.llm (extract_request chat_messages)
          = g self.llm (extract_request chat_messages) →
      self.extract_memory f chat_messages = self.extract_memory g chat_messages) ∧
    (extract_request chat_messages).user
      = extract_user_message chat_messages.length (build_chat_history chat_messages)
          format_instructions ∧
    build_chat_history chat_messages
      = String.intercalate "\n" (labelled_lines chat_messages) ∧
    (labelled_lines chat_messages).length = chat_messages.length ∧
    (∀ i a, chat_messages.get? i = some a →
      (labelled_lines chat_messages).get? i
        = some ("Message " ++ toString (i + 1) ++ ": " ++ a)) := by
  refine ⟨fun f g h => ?_, rfl, rfl, ?_, fun i a ha => ?_⟩
  · unfold MemoryExtractor.extract_memory
    rw [h]
  · simp [labelled_lines, List.enum_length]
  · have ha' : chat_messages[i]? = some a := by
      rw [← List.get?_eq_getElem?]
      exact ha
    simp [labelled_lines, List.getElem?_map, List.getElem?_enum, ha']

/-- Witness for `extract_memory_single_labelled_request`, exercising the
hypothesis-bearing conjuncts at concrete providers and a concrete list. -/
theorem extract_memory_single_labelled_request_witness :
    MemoryExtractor.extract_memory failProvider extractor0 ["a", "b"]
      = MemoryExtractor.extract_memory (fun _ _ => Except.error "provider unreachable")
          extractor0 ["a", "b"] ∧
    (labelled_lines ["a", "b"]).get? 1 = some ("Message " ++ toString (1 + 1) ++ ": " ++ "b") :=
  ⟨(extract_memory_single_labelled_request extractor0 ["a", "b"]).1 failProvider
      (fun _ _ => Except.error "provider unreachable") rfl,
   (extract_memory_single_labelled_request extractor0 ["a", "b"]).2.2.2.2 1 "b" rfl⟩

/-- C10: `get_standard_response` ignores the configured client of the engine
entirely — the result is the same for any two engines — and issues its single
provider request through a freshly constructed client hardcoded to model
`"gpt-4o-mini"` at temperature 0.5 with the `api_key` argument of the call
(not the credential the engine was constructed with). -/
theorem get_standard_response_fresh_client
    (f : ChatOpenAI → Request → Except String String)
    (self : PersonalityEngine) (user_question api_key : String) :
    self.get_standard_response f user_question api_key
      = (match f { model := "gpt-4o-mini", temperature := 0.5, api_key := api_key }
            (standard_request user_question) with
         | Except.ok result => result
         | Except.error e => "Error generating response: " ++ e) ∧
    (∀ self2 : PersonalityEngine,
      self.get_standard_response f user_question api_key
        = self2.get_standard_response f user_question api_key) :=
  ⟨rfl, fun _ => rfl⟩
